import Mathlib

/-!
Verification of the data-model declarations of the opensea-js SDK
(`src/lib/types.d.ts`): the order type hierarchy, the exchange metadata
union, the orderbook wire format `OrderJSON`, the atomic-match parameter
tuple, fee records, bundles, and the callback convention.

TypeScript types are embedded as Lean structures and inductives:
`number` becomes `Int`, `T | null` and `T | undefined` become `Option`,
union types become inductives, and `BigNumber` (bignumber.js) becomes an
arbitrary-precision natural number.  Claims about the *declarations*
themselves (which fields exist, their names, optionality and declared
types) are settled against a field-table reflection of the source file.
-/

namespace OpenSea

/-! ## Decimal-string serialization

The orderbook protocol transmits wei-denominated amounts as decimal
strings.  `serNat` renders a natural number in base 10; `parseNat` reads
it back.  These are the arbitrary-precision codecs the round-trip claims
are about. -/

/-- Little-endian base-10 digits of a natural number; `0` has no digits. -/
def natDigits : Nat → List Nat
  | 0 => []
  | n + 1 => ((n + 1) % 10) :: natDigits ((n + 1) / 10)
decreasing_by exact Nat.div_lt_self (Nat.succ_pos n) (by decide)

/-- Value of a little-endian digit list. -/
def digitsVal : List Nat → Nat
  | [] => 0
  | d :: ds => d + 10 * digitsVal ds

theorem digitsVal_natDigits (n : Nat) : digitsVal (natDigits n) = n := by
  induction n using Nat.strong_induction_on with
  | _ n ih =>
    match n with
    | 0 => simp [natDigits, digitsVal]
    | n + 1 =>
      rw [natDigits, digitsVal,
        ih ((n + 1) / 10) (Nat.div_lt_self (Nat.succ_pos n) (by decide))]
      exact Nat.mod_add_div (n + 1) 10

theorem natDigits_lt (n : Nat) : ∀ d ∈ natDigits n, d < 10 := by
  induction n using Nat.strong_induction_on with
  | _ n ih =>
    match n with
    | 0 => intro d hd; simp [natDigits] at hd
    | n + 1 =>
      intro d hd
      rw [natDigits] at hd
      rcases List.mem_cons.mp hd with h | h
      · exact h ▸ Nat.mod_lt _ (by decide)
      · exact ih ((n + 1) / 10) (Nat.div_lt_self (Nat.succ_pos n) (by decide)) d h

theorem natDigits_ne_nil (n : Nat) (h : n ≠ 0) : natDigits n ≠ [] := by
  match n with
  | 0 => exact absurd rfl h
  | n + 1 => rw [natDigits]; exact List.cons_ne_nil _ _

/-- Render a natural number as a decimal string (most significant digit
first), e.g. `serNat 1230 = "1230"`. -/
def serNat (n : Nat) : String :=
  if n = 0 then "0" else String.mk (((natDigits n).reverse).map Nat.digitChar)

/-- Decimal value of a single character, if it is a digit. -/
def decDigit? (c : Char) : Option Nat :=
  if c.isDigit then some (c.toNat - 48) else none

/-- Parse every element of a list, failing when any element fails. -/
def parseAll (f : α → Option β) : List α → Option (List β)
  | [] => some []
  | a :: as => (f a).bind fun b => (parseAll f as).map (b :: ·)

/-- Parse a decimal string back to a natural number; fails on the empty
string or on any non-digit character. -/
def parseNat (s : String) : Option Nat :=
  if s.data.isEmpty then none
  else (parseAll decDigit? s.data).map (·.foldl (fun acc d => acc * 10 + d) 0)

theorem decDigit?_digitChar : ∀ d, d < 10 → decDigit? (Nat.digitChar d) = some d := by
  decide

theorem parseAll_map_id (f : α → Option β) (g : β → α) (l : List β)
    (h : ∀ b ∈ l, f (g b) = some b) : parseAll f (l.map g) = some l := by
  induction l with
  | nil => rfl
  | cons b bs ih =>
    rw [List.map_cons, parseAll, h b (List.mem_cons_self b bs),
      ih (fun b hb => h b (List.mem_cons_of_mem _ hb))]
    rfl

theorem foldr_digitsVal (ds : List Nat) :
    ds.foldr (fun x y => y * 10 + x) 0 = digitsVal ds := by
  induction ds with
  | nil => rfl
  | cons d ds ih => simp [digitsVal, List.foldr_cons, ih]; ring

theorem parseNat_serNat (n : Nat) : parseNat (serNat n) = some n := by
  by_cases h : n = 0
  · subst h; rfl
  · rw [serNat, if_neg h, parseNat]
    have hne : ((natDigits n).reverse.map Nat.digitChar) ≠ [] := by
      simp [natDigits_ne_nil n h]
    have hdata : (String.mk ((natDigits n).reverse.map Nat.digitChar)).data =
        (natDigits n).reverse.map Nat.digitChar := rfl
    rw [hdata, if_neg (by simpa [List.isEmpty_iff] using hne)]
    rw [parseAll_map_id decDigit? Nat.digitChar _
      (fun d hd => decDigit?_digitChar d
        (natDigits_lt n d (List.mem_reverse.mp hd)))]
    simp [foldr_digitsVal, digitsVal_natDigits]

/-! ## Scalar models

`BigNumber` (bignumber.js) carries the wei-denominated amounts,
timestamps and salts of orders; as used by the order fields it is an
arbitrary-precision nonnegative integer, modelled as `Nat`.  The TS
`number` type is modelled as `Int`, `Date` as an epoch timestamp, and
the untyped TS `object` as an uninformative placeholder. -/

abbrev BigNumber := Nat

abbrev Date := Int

/-- Placeholder for the untyped TS `object` type (`stats`, `traits`,
`displayData`); its contents are not described by the declarations. -/
structure TSObject where
  mk ::
deriving DecidableEq

/-! ## Enumerations (from `src/lib/types.d.ts`) -/

/-- Seaport order side: buy or sell.  `Buy = 0`, `Sell = 1`. -/
inductive OrderSide where
  | Buy
  | Sell
deriving DecidableEq

def OrderSide.toNum : OrderSide → Int
  | .Buy => 0
  | .Sell => 1

/-- Wyvern fee method.  `ProtocolFee = 0`, `SplitFee = 1`. -/
inductive FeeMethod where
  | ProtocolFee
  | SplitFee
deriving DecidableEq

def FeeMethod.toNum : FeeMethod → Int
  | .ProtocolFee => 0
  | .SplitFee => 1

/-- Wyvern: type of sale.  `FixedPrice = 0`, `DutchAuction = 1`. -/
inductive SaleKind where
  | FixedPrice
  | DutchAuction
deriving DecidableEq

def SaleKind.toNum : SaleKind → Int
  | .FixedPrice => 0
  | .DutchAuction => 1

/-- `Call = 0`, `DelegateCall = 1`, `StaticCall = 2`, `Create = 3`. -/
inductive HowToCall where
  | Call
  | DelegateCall
  | StaticCall
  | Create
deriving DecidableEq

def HowToCall.toNum : HowToCall → Int
  | .Call => 0
  | .DelegateCall => 1
  | .StaticCall => 2
  | .Create => 3

inductive WyvernSchemaName where
  | ERC20
  | ERC721
  | ERC721v3
  | ERC1155
  | LegacyEnjin
  | ENSShortNameAuction
deriving DecidableEq

/-- String value of each `WyvernSchemaName` member, as declared. -/
def WyvernSchemaName.toStr : WyvernSchemaName → String
  | .ERC20 => "ERC20"
  | .ERC721 => "ERC721"
  | .ERC721v3 => "ERC721v3"
  | .ERC1155 => "ERC1155"
  | .LegacyEnjin => "Enjin"
  | .ENSShortNameAuction => "ENSShortNameAuction"

def WyvernSchemaName.ofStr : String → Option WyvernSchemaName
  | "ERC20" => some .ERC20
  | "ERC721" => some .ERC721
  | "ERC721v3" => some .ERC721v3
  | "ERC1155" => some .ERC1155
  | "Enjin" => some .LegacyEnjin
  | "ENSShortNameAuction" => some .ENSShortNameAuction
  | _ => none

/-- Types of asset contracts, given by `asset_contract_type` in the API. -/
inductive AssetContractType where
  | Fungible
  | SemiFungible
  | NonFungible
  | Unknown
deriving DecidableEq

/-- The NFT version that a contract uses. -/
inductive TokenStandardVersion where
  | Unsupported
  | Locked
  | Enjin
  | ERC721v1
  | ERC721v2
  | ERC721v3
deriving DecidableEq

/-- Set of possible auction types. -/
inductive AuctionType where
  | Dutch
  | English
  | MinPrice
deriving DecidableEq

/-- Possible types of asset events. -/
inductive AssetEventType where
  | AuctionCreated
  | AuctionSuccessful
  | AuctionCancelled
  | OfferEntered
  | BidEntered
  | BidWithdraw
  | AssetTransfer
  | AssetApprove
  | CompositionCreated
  | Custom
  | Payout
deriving DecidableEq

/-! ## Assets and bundles -/

/-- `WyvernNFTAsset`: `{ id: string; address: string }`. -/
structure WyvernNFTAsset where
  id : String
  address : String
deriving DecidableEq

/-- `WyvernFTAsset`: `{ id?: string; address: string; quantity: string }`. -/
structure WyvernFTAsset where
  id : Option String
  address : String
  quantity : String
deriving DecidableEq

/-- `WyvernAsset = WyvernNFTAsset | WyvernFTAsset`. -/
inductive WyvernAsset where
  | nft (a : WyvernNFTAsset)
  | ft (a : WyvernFTAsset)
deriving DecidableEq

/-- `WyvernBundle`: a parallel pair of asset and schema sequences plus
display metadata. -/
structure WyvernBundle where
  assets : List WyvernAsset
  schemas : List WyvernSchemaName
  name : Option String
  description : Option String
  external_link : Option String
deriving DecidableEq

/-! ## Fee records -/

/-- The basis point values of each type of fee. -/
structure OpenSeaFees where
  openseaSellerFeeBasisPoints : Int
  openseaBuyerFeeBasisPoints : Int
  devSellerFeeBasisPoints : Int
  devBuyerFeeBasisPoints : Int
deriving DecidableEq

/-- Fully computed fees including bounties and transfer fees;
`ComputedFees extends OpenSeaFees`. -/
structure ComputedFees extends OpenSeaFees where
  totalBuyerFeeBasisPoints : Int
  totalSellerFeeBasisPoints : Int
deriving DecidableEq

/-! ## Accounts, tokens and metadata records -/

structure OpenSeaUser where
  username : Option String
deriving DecidableEq

/-- The OpenSea account object appended to orders. -/
structure OpenSeaAccount where
  address : String
  config : String
  profileImgUrl : String
  user : Option OpenSeaUser
deriving DecidableEq

/-- Full annotated fungible token spec with OpenSea metadata. -/
structure OpenSeaFungibleToken where
  name : String
  symbol : String
  decimals : Int
  address : String
  imageUrl : Option String
  ethPrice : Option String
  usdPrice : Option String
deriving DecidableEq

/-- Simple, unannotated asset spec. -/
structure Asset where
  tokenId : Option String
  tokenAddress : String
  schemaName : Option WyvernSchemaName
  version : Option TokenStandardVersion
  name : Option String
  decimals : Option Int
deriving DecidableEq

/-- Annotated asset contract with OpenSea metadata;
`OpenSeaAssetContract extends OpenSeaFees`. -/
structure OpenSeaAssetContract extends OpenSeaFees where
  name : String
  address : String
  type : AssetContractType
  schemaName : WyvernSchemaName
  sellerFeeBasisPoints : Int
  buyerFeeBasisPoints : Int
  description : String
  tokenSymbol : String
  imageUrl : String
  stats : Option TSObject
  traits : Option (List TSObject)
  externalLink : Option String
  wikiLink : Option String
deriving DecidableEq

structure NumericalTraitStats where
  min : Int
  max : Int
deriving DecidableEq

/-- `StringTraitStats`: an index signature `[key: string]: number`,
modelled as an association list. -/
abbrev StringTraitStats := List (String × Int)

inductive TraitStats where
  | numerical (s : NumericalTraitStats)
  | strStats (s : StringTraitStats)
deriving DecidableEq

/-- `OpenSeaTraitStats`: index signature from trait names, modelled as an
association list. -/
abbrev OpenSeaTraitStats := List (String × TraitStats)

/-- `Fees`: two `Map<string, number>` fields, modelled as association
lists. -/
structure Fees where
  openseaFees : List (String × Int)
  sellerFees : List (String × Int)
deriving DecidableEq

/-- Annotated collection stats with OpenSea. -/
structure OpenSeaCollectionStats where
  one_minute_volume : Int
  one_minute_change : Int
  one_minute_sales : Int
  one_minute_sales_change : Int
  one_minute_average_price : Int
  one_minute_difference : Int
  five_minute_volume : Int
  five_minute_change : Int
  five_minute_sales : Int
  five_minute_sales_change : Int
  five_minute_average_price : Int
  five_minute_difference : Int
  fifteen_minute_volume : Int
  fifteen_minute_change : Int
  fifteen_minute_sales : Int
  fifteen_minute_sales_change : Int
  fifteen_minute_average_price : Int
  fifteen_minute_difference : Int
  thirty_minute_volume : Int
  thirty_minute_change : Int
  thirty_minute_sales : Int
  thirty_minute_sales_change : Int
  thirty_minute_average_price : Int
  thirty_minute_difference : Int
  one_hour_volume : Int
  one_hour_change : Int
  one_hour_sales : Int
  one_hour_sales_change : Int
  one_hour_average_price : Int
  one_hour_difference : Int
  six_hour_volume : Int
  six_hour_change : Int
  six_hour_sales : Int
  six_hour_sales_change : Int
  six_hour_average_price : Int
  six_hour_difference : Int
  one_day_volume : Int
  one_day_change : Int
  one_day_sales : Int
  one_day_sales_change : Int
  one_day_average_price : Int
  one_day_difference : Int
  seven_day_volume : Int
  seven_day_change : Int
  seven_day_sales : Int
  seven_day_average_price : Int
  seven_day_difference : Int
  thirty_day_volume : Int
  thirty_day_change : Int
  thirty_day_sales : Int
  thirty_day_average_price : Int
  thirty_day_difference : Int
  total_volume : Int
  total_sales : Int
  total_supply : Int
  count : Int
  num_owners : Int
  average_price : Int
  num_reports : Int
  market_cap : Int
  floor_price : Int
deriving DecidableEq

/-- Annotated collection with OpenSea metadata;
`OpenSeaCollection extends OpenSeaFees`. -/
structure OpenSeaCollection extends OpenSeaFees where
  name : String
  slug : String
  editors : List String
  hidden : Bool
  featured : Bool
  createdDate : Date
  description : String
  imageUrl : String
  largeImageUrl : String
  featuredImageUrl : String
  stats : OpenSeaCollectionStats
  displayData : TSObject
  paymentTokens : List OpenSeaFungibleToken
  payoutAddress : Option String
  traitStats : OpenSeaTraitStats
  externalLink : Option String
  wikiLink : Option String
  fees : Fees
deriving DecidableEq

/-- A `Transaction` record. -/
structure Transaction where
  fromAccount : OpenSeaAccount
  toAccount : OpenSeaAccount
  createdDate : Date
  modifiedDate : Date
  transactionHash : String
  transactionIndex : String
  blockNumber : String
  blockHash : String
  timestamp : Date
deriving DecidableEq

/-- Details about an event that occurred on an asset. -/
structure AssetEvent where
  eventType : AssetEventType
  eventTimestamp : Date
  auctionType : AuctionType
  totalPrice : String
  transaction : Option Transaction
  paymentToken : Option OpenSeaFungibleToken
deriving DecidableEq

/-! ## Exchange metadata -/

/-- The single-asset variant: asset + schema + optional referrer. -/
structure ExchangeMetadataForAsset where
  asset : WyvernAsset
  schema : WyvernSchemaName
  referrerAddress : Option String
deriving DecidableEq

/-- The bundle variant: bundle + optional referrer. -/
structure ExchangeMetadataForBundle where
  bundle : WyvernBundle
  referrerAddress : Option String
deriving DecidableEq

/-- `ExchangeMetadata = ExchangeMetadataForAsset | ExchangeMetadataForBundle`,
a union with exactly one variant per value. -/
inductive ExchangeMetadata where
  | forAsset (m : ExchangeMetadataForAsset)
  | forBundle (m : ExchangeMetadataForBundle)
deriving DecidableEq

/-- Whether the single-asset variant is populated. -/
def ExchangeMetadata.isAssetVariant : ExchangeMetadata → Bool
  | .forAsset _ => true
  | .forBundle _ => false

/-- Whether the bundle variant is populated. -/
def ExchangeMetadata.isBundleVariant : ExchangeMetadata → Bool
  | .forAsset _ => false
  | .forBundle _ => true

/-! ## The order hierarchy -/

/-- `UnhashedOrder`: the client-side order record before hashing. -/
structure UnhashedOrder where
  exchange : String
  maker : String
  taker : String
  makerRelayerFee : BigNumber
  takerRelayerFee : BigNumber
  makerProtocolFee : BigNumber
  takerProtocolFee : BigNumber
  feeRecipient : String
  target : String
  calldata : String
  replacementPattern : String
  staticTarget : String
  staticExtradata : String
  paymentToken : String
  basePrice : BigNumber
  extra : BigNumber
  listingTime : BigNumber
  expirationTime : BigNumber
  salt : BigNumber
  feeMethod : FeeMethod
  side : OrderSide
  saleKind : SaleKind
  howToCall : HowToCall
  quantity : BigNumber
  makerReferrerFee : BigNumber
  waitingForBestCounterOrder : Bool
  englishAuctionReservePrice : Option BigNumber
  metadata : ExchangeMetadata
deriving DecidableEq

/-- `UnsignedOrder extends UnhashedOrder { hash?: string }`. -/
structure UnsignedOrder extends UnhashedOrder where
  hash : Option String
deriving DecidableEq

/-- An ECDSA signature triple. -/
structure ECSignature where
  v : Int
  r : String
  s : String
deriving DecidableEq

mutual

/-- `Order extends UnsignedOrder, Partial<ECSignature>`: the base order
fields, three independently optional signature components from
`Partial<ECSignature>`, and optional runtime-computed fields.  Orders
don't need to be signed if they're pre-approved with a transaction on
the contract.  (`Order`, `OpenSeaAsset` and `OpenSeaAssetBundle` are
mutually recursive through `asset`/`assetBundle`/`orders`, so they are
inductives with one constructor each rather than structures.) -/
inductive Order where
  | mk
    (base : UnsignedOrder)
    (v : Option Int)
    (r : Option String)
    (s : Option String)
    (createdTime : Option BigNumber)
    (currentPrice : Option BigNumber)
    (currentBounty : Option BigNumber)
    (makerAccount : Option OpenSeaAccount)
    (takerAccount : Option OpenSeaAccount)
    (paymentTokenContract : Option OpenSeaFungibleToken)
    (feeRecipientAccount : Option OpenSeaAccount)
    (cancelledOrFinalized : Option Bool)
    (markedInvalid : Option Bool)
    (asset : Option OpenSeaAsset)
    (assetBundle : Option OpenSeaAssetBundle)
    (nonce : Option Int)

/-- `OpenSeaAsset extends Asset`: annotated asset spec with OpenSea
metadata. -/
inductive OpenSeaAsset where
  | mk
    (base : Asset)
    (assetContract : OpenSeaAssetContract)
    (collection : OpenSeaCollection)
    (name : String)
    (description : String)
    (owner : OpenSeaAccount)
    (orders : Option (List Order))
    (buyOrders : Option (List Order))
    (sellOrders : Option (List Order))
    (isPresale : Bool)
    (imageUrl : String)
    (imagePreviewUrl : String)
    (imageUrlOriginal : String)
    (imageUrlThumbnail : String)
    (openseaLink : String)
    (externalLink : String)
    (traits : List TSObject)
    (numSales : Int)
    (lastSale : Option AssetEvent)
    (backgroundColor : Option String)

/-- Bundles of assets, grouped together into one OpenSea order. -/
inductive OpenSeaAssetBundle where
  | mk
    (maker : OpenSeaAccount)
    (assets : List OpenSeaAsset)
    (name : String)
    (slug : String)
    (permalink : String)
    (sellOrders : Option (List Order))
    (assetContract : Option OpenSeaAssetContract)
    (description : Option String)
    (externalLink : Option String)

end

/-- The runtime-computed / annotation fields an `Order` adds beyond
`UnsignedOrder` and the signature components. -/
structure OrderRuntimeFields where
  createdTime : Option BigNumber
  currentPrice : Option BigNumber
  currentBounty : Option BigNumber
  makerAccount : Option OpenSeaAccount
  takerAccount : Option OpenSeaAccount
  paymentTokenContract : Option OpenSeaFungibleToken
  feeRecipientAccount : Option OpenSeaAccount
  cancelledOrFinalized : Option Bool
  markedInvalid : Option Bool
  asset : Option OpenSeaAsset
  assetBundle : Option OpenSeaAssetBundle
  nonce : Option Int

/-- Decompose an `Order` into its `UnsignedOrder` base, its signature
components, and its runtime fields. -/
def Order.parts :
    Order → UnsignedOrder × (Option Int × Option String × Option String) × OrderRuntimeFields
  | .mk b v r s ct cp cb ma ta ptc fra cof mi a ab n =>
    (b, (v, r, s), ⟨ct, cp, cb, ma, ta, ptc, fra, cof, mi, a, ab, n⟩)

/-- Rebuild an `Order` from base, signature components and runtime
fields. -/
def Order.ofParts :
    UnsignedOrder × (Option Int × Option String × Option String) × OrderRuntimeFields → Order
  | (b, (v, r, s), rt) =>
    .mk b v r s rt.createdTime rt.currentPrice rt.currentBounty rt.makerAccount
      rt.takerAccount rt.paymentTokenContract rt.feeRecipientAccount
      rt.cancelledOrFinalized rt.markedInvalid rt.asset rt.assetBundle rt.nonce

def Order.base (o : Order) : UnsignedOrder := o.parts.1

def Order.v (o : Order) : Option Int := o.parts.2.1.1

def Order.r (o : Order) : Option String := o.parts.2.1.2.1

def Order.s (o : Order) : Option String := o.parts.2.1.2.2

def Order.metadata (o : Order) : ExchangeMetadata := o.base.metadata

/-! ## The orderbook wire format -/

/-- The TS union `number | string` used by the timestamp fields of
`OrderJSON`. -/
inductive NumOrString where
  | num (n : Int)
  | str (s : String)
deriving DecidableEq

/-- `OrderJSON extends Partial<ECSignature>`: order attributes as
transmitted to and from the orderbook API.  String-typed fields carry
decimal strings; `feeMethod`/`side`/`saleKind`/`howToCall` carry the
enum discriminants as numbers; the timestamps admit both. -/
structure OrderJSON where
  v : Option Int
  r : Option String
  s : Option String
  exchange : String
  maker : String
  taker : String
  makerRelayerFee : String
  takerRelayerFee : String
  makerProtocolFee : String
  takerProtocolFee : String
  feeRecipient : String
  feeMethod : Int
  side : Int
  saleKind : Int
  target : String
  howToCall : Int
  calldata : String
  replacementPattern : String
  staticTarget : String
  staticExtradata : String
  paymentToken : String
  basePrice : String
  extra : String
  listingTime : NumOrString
  expirationTime : NumOrString
  salt : String
  makerReferrerFee : String
  quantity : String
  englishAuctionReservePrice : Option String
  createdTime : Option NumOrString
  metadata : ExchangeMetadata
  nonce : Option Int
deriving DecidableEq

def FeeMethod.ofNum : Int → Option FeeMethod
  | 0 => some .ProtocolFee
  | 1 => some .SplitFee
  | _ => none

def OrderSide.ofNum : Int → Option OrderSide
  | 0 => some .Buy
  | 1 => some .Sell
  | _ => none

def SaleKind.ofNum : Int → Option SaleKind
  | 0 => some .FixedPrice
  | 1 => some .DutchAuction
  | _ => none

def HowToCall.ofNum : Int → Option HowToCall
  | 0 => some .Call
  | 1 => some .DelegateCall
  | 2 => some .StaticCall
  | 3 => some .Create
  | _ => none

/-- Numeric value carried by a `number | string` field, read back as an
arbitrary-precision amount. -/
def NumOrString.toBigNumber : NumOrString → Option BigNumber
  | .num n => if n < 0 then none else some n.toNat
  | .str s => parseNat s

/-- Modelled from the spec: the SDK's order serializer (`orderToJSON`,
not part of `types.d.ts`) — every `BigNumber` field is serialized as a
decimal string, enum fields as their numeric discriminants, and the
metadata union is carried through unchanged. -/
def orderToJSON (o : UnhashedOrder) : OrderJSON where
  v := none
  r := none
  s := none
  exchange := o.exchange
  maker := o.maker
  taker := o.taker
  makerRelayerFee := serNat o.makerRelayerFee
  takerRelayerFee := serNat o.takerRelayerFee
  makerProtocolFee := serNat o.makerProtocolFee
  takerProtocolFee := serNat o.takerProtocolFee
  feeRecipient := o.feeRecipient
  feeMethod := o.feeMethod.toNum
  side := o.side.toNum
  saleKind := o.saleKind.toNum
  target := o.target
  howToCall := o.howToCall.toNum
  calldata := o.calldata
  replacementPattern := o.replacementPattern
  staticTarget := o.staticTarget
  staticExtradata := o.staticExtradata
  paymentToken := o.paymentToken
  basePrice := serNat o.basePrice
  extra := serNat o.extra
  listingTime := .str (serNat o.listingTime)
  expirationTime := .str (serNat o.expirationTime)
  salt := serNat o.salt
  makerReferrerFee := serNat o.makerReferrerFee
  quantity := serNat o.quantity
  englishAuctionReservePrice := o.englishAuctionReservePrice.map serNat
  createdTime := none
  metadata := o.metadata
  nonce := none

/-- Modelled from the spec: the SDK's order deserializer (`orderFromJSON`,
not part of `types.d.ts`) — decimal strings are parsed back to
arbitrary-precision amounts, enum discriminants back to enum members.
`waitingForBestCounterOrder` has no `OrderJSON` counterpart and is
reset to `false`. -/
def parseReserve : Option String → Option (Option BigNumber)
  | none => some none
  | some s => (parseNat s).map some

def orderFromJSON (j : OrderJSON) : Option UnhashedOrder :=
  match parseNat j.makerRelayerFee, parseNat j.takerRelayerFee,
      parseNat j.makerProtocolFee, parseNat j.takerProtocolFee,
      parseNat j.basePrice, parseNat j.extra,
      j.listingTime.toBigNumber, j.expirationTime.toBigNumber,
      parseNat j.salt, parseNat j.makerReferrerFee, parseNat j.quantity,
      FeeMethod.ofNum j.feeMethod, OrderSide.ofNum j.side,
      SaleKind.ofNum j.saleKind, HowToCall.ofNum j.howToCall,
      parseReserve j.englishAuctionReservePrice with
  | some makerRelayerFee, some takerRelayerFee, some makerProtocolFee,
    some takerProtocolFee, some basePrice, some extra, some listingTime,
    some expirationTime, some salt, some makerReferrerFee, some quantity,
    some feeMethod, some side, some saleKind, some howToCall, some reserve =>
    some
      { exchange := j.exchange
        maker := j.maker
        taker := j.taker
        makerRelayerFee := makerRelayerFee
        takerRelayerFee := takerRelayerFee
        makerProtocolFee := makerProtocolFee
        takerProtocolFee := takerProtocolFee
        feeRecipient := j.feeRecipient
        target := j.target
        calldata := j.calldata
        replacementPattern := j.replacementPattern
        staticTarget := j.staticTarget
        staticExtradata := j.staticExtradata
        paymentToken := j.paymentToken
        basePrice := basePrice
        extra := extra
        listingTime := listingTime
        expirationTime := expirationTime
        salt := salt
        feeMethod := feeMethod
        side := side
        saleKind := saleKind
        howToCall := howToCall
        quantity := quantity
        makerReferrerFee := makerReferrerFee
        waitingForBestCounterOrder := false
        englishAuctionReservePrice := reserve
        metadata := j.metadata }
  | _, _, _, _, _, _, _, _, _, _, _, _, _, _, _, _ => none

theorem feeMethod_ofNum_toNum (x : FeeMethod) : FeeMethod.ofNum x.toNum = some x := by
  cases x <;> rfl

theorem orderSide_ofNum_toNum (x : OrderSide) : OrderSide.ofNum x.toNum = some x := by
  cases x <;> rfl

theorem saleKind_ofNum_toNum (x : SaleKind) : SaleKind.ofNum x.toNum = some x := by
  cases x <;> rfl

theorem howToCall_ofNum_toNum (x : HowToCall) : HowToCall.ofNum x.toNum = some x := by
  cases x <;> rfl

/-- Full round trip through the wire format: every field except
`waitingForBestCounterOrder` (which `OrderJSON` cannot represent) is
recovered exactly. -/
theorem orderFromJSON_orderToJSON (o : UnhashedOrder) :
    orderFromJSON (orderToJSON o) =
      some { o with waitingForBestCounterOrder := false } := by
  cases o with
  | mk exchange maker taker mrf trf mpf tpf feeRecipient target calldata
      replacementPattern staticTarget staticExtradata paymentToken basePrice
      extra listingTime expirationTime salt feeMethod side saleKind howToCall
      quantity makerReferrerFee waiting reserve metadata =>
    cases reserve <;>
      simp [orderFromJSON, orderToJSON, parseNat_serNat, NumOrString.toBigNumber,
        parseReserve, feeMethod_ofNum_toNum, orderSide_ofNum_toNum,
        saleKind_ofNum_toNum, howToCall_ofNum_toNum, Option.map]

/-! ## Reflection of the type declarations

Claims about the declarations themselves (which fields exist in
`OrderJSON`, their declared TS types, which keys are optional, the slot
order of the atomic-match tuple) are settled against this table, a
direct transcription of `src/lib/types.d.ts`. -/

/-- TS type expressions occurring in the declarations under study. -/
inductive TSType where
  | str
  | num
  | boolean
  | bigNumber
  | numOrStr
  | numOrBigNumber
  | orUndefined (t : TSType)
  | array (t : TSType)
  | enumRef (n : String)
  | exchangeMetadata
deriving DecidableEq

/-- One interface field: its name, whether the key is declared optional
(with `?`), and its declared type. -/
structure TSField where
  name : String
  optionalKey : Bool
  type : TSType
deriving DecidableEq

/-- The fields of `interface OrderJSON extends Partial<ECSignature>`,
in declaration order (the three `Partial<ECSignature>` members first). -/
def orderJSONFields : List TSField :=
  [ ⟨"v", true, .num⟩
  , ⟨"r", true, .str⟩
  , ⟨"s", true, .str⟩
  , ⟨"exchange", false, .str⟩
  , ⟨"maker", false, .str⟩
  , ⟨"taker", false, .str⟩
  , ⟨"makerRelayerFee", false, .str⟩
  , ⟨"takerRelayerFee", false, .str⟩
  , ⟨"makerProtocolFee", false, .str⟩
  , ⟨"takerProtocolFee", false, .str⟩
  , ⟨"feeRecipient", false, .str⟩
  , ⟨"feeMethod", false, .num⟩
  , ⟨"side", false, .num⟩
  , ⟨"saleKind", false, .num⟩
  , ⟨"target", false, .str⟩
  , ⟨"howToCall", false, .num⟩
  , ⟨"calldata", false, .str⟩
  , ⟨"replacementPattern", false, .str⟩
  , ⟨"staticTarget", false, .str⟩
  , ⟨"staticExtradata", false, .str⟩
  , ⟨"paymentToken", false, .str⟩
  , ⟨"basePrice", false, .str⟩
  , ⟨"extra", false, .str⟩
  , ⟨"listingTime", false, .numOrStr⟩
  , ⟨"expirationTime", false, .numOrStr⟩
  , ⟨"salt", false, .str⟩
  , ⟨"makerReferrerFee", false, .str⟩
  , ⟨"quantity", false, .str⟩
  , ⟨"englishAuctionReservePrice", false, .orUndefined .str⟩
  , ⟨"createdTime", true, .numOrStr⟩
  , ⟨"metadata", false, .exchangeMetadata⟩
  , ⟨"nonce", true, .num⟩ ]

/-- The fields of `interface UnhashedOrder`, in declaration order. -/
def unhashedOrderFields : List TSField :=
  [ ⟨"exchange", false, .str⟩
  , ⟨"maker", false, .str⟩
  , ⟨"taker", false, .str⟩
  , ⟨"makerRelayerFee", false, .bigNumber⟩
  , ⟨"takerRelayerFee", false, .bigNumber⟩
  , ⟨"makerProtocolFee", false, .bigNumber⟩
  , ⟨"takerProtocolFee", false, .bigNumber⟩
  , ⟨"feeRecipient", false, .str⟩
  , ⟨"target", false, .str⟩
  , ⟨"calldata", false, .str⟩
  , ⟨"replacementPattern", false, .str⟩
  , ⟨"staticTarget", false, .str⟩
  , ⟨"staticExtradata", false, .str⟩
  , ⟨"paymentToken", false, .str⟩
  , ⟨"basePrice", false, .bigNumber⟩
  , ⟨"extra", false, .bigNumber⟩
  , ⟨"listingTime", false, .bigNumber⟩
  , ⟨"expirationTime", false, .bigNumber⟩
  , ⟨"salt", false, .bigNumber⟩
  , ⟨"feeMethod", false, .enumRef "FeeMethod"⟩
  , ⟨"side", false, .enumRef "OrderSide"⟩
  , ⟨"saleKind", false, .enumRef "SaleKind"⟩
  , ⟨"howToCall", false, .enumRef "HowToCall"⟩
  , ⟨"quantity", false, .bigNumber⟩
  , ⟨"makerReferrerFee", false, .bigNumber⟩
  , ⟨"waitingForBestCounterOrder", false, .boolean⟩
  , ⟨"englishAuctionReservePrice", true, .bigNumber⟩
  , ⟨"metadata", false, .exchangeMetadata⟩ ]

/-- The keys removed by
`RawWyvernOrderJSON = Omit<OrderJSON, "makerReferrerFee" | "quantity" |
"englishAuctionReservePrice" | "createdTime" | "metadata" | "hash" |
"v" | "r" | "s">`. -/
def rawWyvernOmittedKeys : List String :=
  ["makerReferrerFee", "quantity", "englishAuctionReservePrice",
   "createdTime", "metadata", "hash", "v", "r", "s"]

/-- `RawWyvernOrderJSON`: the `Omit` removes exactly the listed keys and
keeps every other field unchanged. -/
def rawWyvernOrderJSONFields : List TSField :=
  orderJSONFields.filter (fun f => f.name ∉ rawWyvernOmittedKeys)

/-! ## The atomic-match parameter tuple -/

/-- The TS union `number | BigNumber`. -/
inductive NumOrBigNumber where
  | num (n : Int)
  | big (b : BigNumber)
deriving DecidableEq

/-- `WyvernAtomicMatchParameters`: the positional tuple passed to the
atomic match entry point, as an 11-fold product. -/
def WyvernAtomicMatchParameters :=
  List String × List BigNumber × List NumOrBigNumber ×
    String × String × String × String × String × String ×
    List NumOrBigNumber × List String

/-- The slot types of the `WyvernAtomicMatchParameters` tuple, in
declaration order. -/
def wyvernAtomicMatchParameterSlots : List TSType :=
  [ .array .str
  , .array .bigNumber
  , .array .numOrBigNumber
  , .str
  , .str
  , .str
  , .str
  , .str
  , .str
  , .array .numOrBigNumber
  , .array .str ]

/-! ## Bundle serialization -/

/-- Modelled from the spec: the wire form of a `WyvernAsset` (the
serializer itself is not part of `types.d.ts`) — id and quantity are
carried when present, the address always. -/
structure WyvernAssetJSON where
  id : Option String
  address : String
  quantity : Option String
deriving DecidableEq

/-- Modelled from the spec: serializing one asset.  A fungible asset
keeps its quantity; a non-fungible one has none. -/
def WyvernAsset.toJSON : WyvernAsset → WyvernAssetJSON
  | .nft a => ⟨some a.id, a.address, none⟩
  | .ft a => ⟨a.id, a.address, some a.quantity⟩

/-- Modelled from the spec: reading one asset back.  A quantity marks a
fungible asset; otherwise an id marks a non-fungible one. -/
def WyvernAsset.ofJSON (j : WyvernAssetJSON) : Option WyvernAsset :=
  match j.quantity with
  | some q => some (.ft ⟨j.id, j.address, q⟩)
  | none =>
    match j.id with
    | some i => some (.nft ⟨i, j.address⟩)
    | none => none

/-- Wire form of a `WyvernBundle`: assets and schema names as parallel
sequences, index-wise. -/
structure WyvernBundleJSON where
  assets : List WyvernAssetJSON
  schemas : List String
  name : Option String
  description : Option String
  external_link : Option String
deriving DecidableEq

/-- Modelled from the spec: bundle serialization (not part of
`types.d.ts`) — each asset and each schema name is serialized in place,
preserving the index-wise pairing. -/
def WyvernBundle.toJSON (b : WyvernBundle) : WyvernBundleJSON :=
  ⟨b.assets.map WyvernAsset.toJSON, b.schemas.map WyvernSchemaName.toStr,
    b.name, b.description, b.external_link⟩

/-- Modelled from the spec: bundle deserialization (not part of
`types.d.ts`) — each asset and each schema name is read back in place. -/
def WyvernBundle.ofJSON (j : WyvernBundleJSON) : Option WyvernBundle :=
  match parseAll WyvernAsset.ofJSON j.assets,
      parseAll WyvernSchemaName.ofStr j.schemas with
  | some assets, some schemas =>
    some ⟨assets, schemas, j.name, j.description, j.external_link⟩
  | _, _ => none

theorem WyvernAsset.ofJSON_toJSON (a : WyvernAsset) :
    WyvernAsset.ofJSON a.toJSON = some a := by
  cases a <;> rfl

theorem WyvernSchemaName.ofStr_toStr (s : WyvernSchemaName) :
    WyvernSchemaName.ofStr s.toStr = some s := by
  cases s <;> rfl

/-! ## Fee validity -/

/-- Modelled from the spec: a well-formed `ComputedFees` record — every
basis-point field lies in `[0, 10000]` and each total is the sum of its
opensea and dev constituents.  (The fee computation that establishes
this lives outside `types.d.ts`.) -/
def ComputedFees.valid (f : ComputedFees) : Prop :=
  0 ≤ f.openseaSellerFeeBasisPoints ∧ f.openseaSellerFeeBasisPoints ≤ 10000 ∧
  0 ≤ f.openseaBuyerFeeBasisPoints ∧ f.openseaBuyerFeeBasisPoints ≤ 10000 ∧
  0 ≤ f.devSellerFeeBasisPoints ∧ f.devSellerFeeBasisPoints ≤ 10000 ∧
  0 ≤ f.devBuyerFeeBasisPoints ∧ f.devBuyerFeeBasisPoints ≤ 10000 ∧
  0 ≤ f.totalBuyerFeeBasisPoints ∧ f.totalBuyerFeeBasisPoints ≤ 10000 ∧
  0 ≤ f.totalSellerFeeBasisPoints ∧ f.totalSellerFeeBasisPoints ≤ 10000 ∧
  f.totalBuyerFeeBasisPoints =
    f.openseaBuyerFeeBasisPoints + f.devBuyerFeeBasisPoints ∧
  f.totalSellerFeeBasisPoints =
    f.openseaSellerFeeBasisPoints + f.devSellerFeeBasisPoints

instance (f : ComputedFees) : Decidable f.valid := by
  unfold ComputedFees.valid; infer_instance

/-! ## The callback convention -/

/-- A JS `Error` object, reduced to its message. -/
structure Error where
  message : String
deriving DecidableEq

/-- `Web3Callback<T> = (err: Error | null, result: T) => void`. -/
def Web3Callback (T : Type) := Option Error → T → Unit

/-- Modelled from the spec: one invocation of a `Web3Callback<T>` by the
(excluded) transaction-sending logic — the handler is called either with
an error object or with a typed result. -/
inductive Web3CallbackInvocation (T : Type) where
  | failure (err : Error)
  | success (result : T)

/-- The error argument the handler receives: the error object on
failure, `null` on success. -/
def Web3CallbackInvocation.errArg : Web3CallbackInvocation T → Option Error
  | .failure e => some e
  | .success _ => none

/-- The meaningful typed result the handler receives: present on
success, absent on failure. -/
def Web3CallbackInvocation.resultArg : Web3CallbackInvocation T → Option T
  | .failure _ => none
  | .success t => some t

/-! ## Sample values -/

def sampleUnhashedOrder : UnhashedOrder where
  exchange := "0x7be8076f4ea4a4ad08075c2508e481d6c946d12b"
  maker := "0x0000000000000000000000000000000000000001"
  taker := "0x0000000000000000000000000000000000000000"
  makerRelayerFee := 250
  takerRelayerFee := 0
  makerProtocolFee := 0
  takerProtocolFee := 0
  feeRecipient := "0x5b3256965e7c3cf26e11fcaf296dfc8807c01073"
  target := "0x0000000000000000000000000000000000000002"
  calldata := "0x"
  replacementPattern := "0x"
  staticTarget := "0x0000000000000000000000000000000000000000"
  staticExtradata := "0x"
  paymentToken := "0x0000000000000000000000000000000000000000"
  basePrice := 1000000000000000000000
  extra := 0
  listingTime := 1577836800
  expirationTime := 1580515200
  salt := 123456789012345678901234567890
  feeMethod := .SplitFee
  side := .Sell
  saleKind := .FixedPrice
  howToCall := .Call
  quantity := 1
  makerReferrerFee := 0
  waitingForBestCounterOrder := false
  englishAuctionReservePrice := none
  metadata :=
    .forAsset ⟨.nft ⟨"1", "0x0000000000000000000000000000000000000002"⟩, .ERC721, none⟩

def sampleUnsignedOrder : UnsignedOrder :=
  { toUnhashedOrder := sampleUnhashedOrder, hash := none }

/-- An order carrying only the `v` signature component: well-formed,
because `Partial<ECSignature>` makes `v`, `r` and `s` each optional on
their own. -/
def sampleOrderVOnly : Order :=
  .mk sampleUnsignedOrder (some 27) none none
    none none none none none none none none none none none none

/-! ## C1: how the numeric order fields of `OrderJSON` are typed -/

/-- The fields the claim calls numeric: fee amounts, base price, extra,
timestamps, salt, quantity, and the enum discriminants. -/
def numericOrderFieldNames : List String :=
  ["makerRelayerFee", "takerRelayerFee", "makerProtocolFee",
   "takerProtocolFee", "makerReferrerFee", "basePrice", "extra",
   "listingTime", "expirationTime", "createdTime", "salt", "quantity",
   "feeMethod", "side", "saleKind", "howToCall"]

/-- The wei-denominated amount fields of `OrderJSON`. -/
def weiAmountFieldNames : List String :=
  ["makerRelayerFee", "takerRelayerFee", "makerProtocolFee",
   "takerProtocolFee", "makerReferrerFee", "basePrice", "extra",
   "salt", "quantity"]

/-- The enum discriminant fields of `OrderJSON`. -/
def enumDiscriminantFieldNames : List String :=
  ["feeMethod", "side", "saleKind", "howToCall"]

/-- The timestamp fields of `OrderJSON`. -/
def timestampFieldNames : List String :=
  ["listingTime", "expirationTime", "createdTime"]

/-- C1 counterexample: `feeMethod` is a numeric order field of
`OrderJSON` (an enum discriminant) declared with native type `number`,
not `string`, so not every numeric order field is a decimal string. -/
theorem C1_counterexample :
    (⟨"feeMethod", false, .num⟩ : TSField) ∈ orderJSONFields ∧
    "feeMethod" ∈ numericOrderFieldNames ∧
    TSType.num ≠ TSType.str ∧
    ¬ (∀ f ∈ orderJSONFields, f.name ∈ numericOrderFieldNames →
        f.type = TSType.str) := by
  decide

/-- C1 (amended): in `OrderJSON` every wei-denominated amount field
(fees, base price, extra, salt, quantity) is declared as a decimal
`string`, while the enum discriminants are native `number`s, the
timestamps are `number | string`, and the reserve price is
`string | undefined`. -/
theorem C1_theorem :
    (∀ f ∈ orderJSONFields, f.name ∈ weiAmountFieldNames →
      f.type = TSType.str) ∧
    (∀ f ∈ orderJSONFields, f.name ∈ enumDiscriminantFieldNames →
      f.type = TSType.num) ∧
    (∀ f ∈ orderJSONFields, f.name ∈ timestampFieldNames →
      f.type = TSType.numOrStr) ∧
    (∀ f ∈ orderJSONFields, f.name = "englishAuctionReservePrice" →
      f.type = TSType.orUndefined TSType.str) := by
  decide

/-- C1 witness: the `basePrice` field of `OrderJSON` is declared as a
decimal string. -/
theorem C1_witness :
    (⟨"basePrice", false, TSType.str⟩ : TSField).type = TSType.str :=
  C1_theorem.1 ⟨"basePrice", false, TSType.str⟩ (by decide) (by decide)

/-! ## C2: the order type hierarchy -/

/-- C2 counterexample: `Order extends ... Partial<ECSignature>` makes
`v`, `r`, `s` each optional independently, so a well-formed order can
carry `v` alone — the signature triple is not present-as-a-whole or
absent-as-a-whole. -/
theorem C2_counterexample :
    sampleOrderVOnly.v = some 27 ∧
    sampleOrderVOnly.r = none ∧
    sampleOrderVOnly.s = none ∧
    ¬ ((sampleOrderVOnly.v ≠ none ∧ sampleOrderVOnly.r ≠ none ∧
          sampleOrderVOnly.s ≠ none) ∨
       (sampleOrderVOnly.v = none ∧ sampleOrderVOnly.r = none ∧
          sampleOrderVOnly.s = none)) := by
  refine ⟨rfl, rfl, rfl, ?_⟩
  simp [sampleOrderVOnly, Order.v, Order.r, Order.s, Order.parts]

/-- C2 (amended): `UnsignedOrder` is exactly `UnhashedOrder` plus one
optional `hash` field, and `Order` is exactly `UnsignedOrder` plus three
independently optional signature components `v`, `r`, `s` plus the
optional runtime-computed fields — each order decomposes uniquely into
these parts and is rebuilt from them. -/
theorem C2_theorem :
    (∀ u : UnsignedOrder,
      ({ toUnhashedOrder := u.toUnhashedOrder, hash := u.hash } : UnsignedOrder) = u) ∧
    (∀ (b : UnhashedOrder) (h : Option String),
      ({ toUnhashedOrder := b, hash := h } : UnsignedOrder).toUnhashedOrder = b ∧
      ({ toUnhashedOrder := b, hash := h } : UnsignedOrder).hash = h) ∧
    (∀ o : Order, Order.ofParts o.parts = o) ∧
    (∀ p, (Order.ofParts p).parts = p) := by
  refine ⟨fun u => rfl, fun b h => ⟨rfl, rfl⟩, fun o => ?_, fun p => ?_⟩
  · cases o; rfl
  · obtain ⟨b, ⟨v, r, s⟩, rt⟩ := p; rfl

/-! ## C3: exactly one metadata variant -/

/-- C3: for every `Order`, its `metadata` field holds exactly one of the
two `ExchangeMetadata` variants — the single-asset variant or the bundle
variant — never both and never neither. -/
theorem C3_theorem (o : Order) :
    (o.metadata.isAssetVariant = true ∧ o.metadata.isBundleVariant = false) ∨
    (o.metadata.isAssetVariant = false ∧ o.metadata.isBundleVariant = true) := by
  cases h : o.metadata <;>
    simp [h, ExchangeMetadata.isAssetVariant, ExchangeMetadata.isBundleVariant]

/-! ## C4: the wire round trip preserves numeric fields -/

/-- The numeric fields of an order: fees, base price, extra, listing and
expiration times, salt, quantity. -/
def UnhashedOrder.numericFields (o : UnhashedOrder) :
    BigNumber × BigNumber × BigNumber × BigNumber × BigNumber ×
      BigNumber × BigNumber × BigNumber × BigNumber × BigNumber × BigNumber :=
  (o.makerRelayerFee, o.takerRelayerFee, o.makerProtocolFee,
   o.takerProtocolFee, o.makerReferrerFee, o.basePrice, o.extra,
   o.listingTime, o.expirationTime, o.salt, o.quantity)

/-- C4: serializing any `UnhashedOrder` to `OrderJSON` and deserializing
back yields an order whose every numeric field (fees, basePrice, extra,
listingTime, expirationTime, salt, quantity) equals the original
exactly — arbitrary-precision, so also beyond `2 ^ 53`. -/
theorem C4_theorem (o : UnhashedOrder) :
    (orderFromJSON (orderToJSON o)).map UnhashedOrder.numericFields =
      some o.numericFields := by
  rw [orderFromJSON_orderToJSON]; rfl

/-! ## C5: the atomic-match parameter tuple -/

/-- The slot sequence the claim describes: three arrays, then five
address/bytes string fields, then the final mixed array and address
array. -/
def claimedAtomicMatchSlots : List TSType :=
  [ .array .str, .array .bigNumber, .array .numOrBigNumber
  , .str, .str, .str, .str, .str
  , .array .numOrBigNumber, .array .str ]

/-- C5 counterexample: the declared tuple has 11 slots with SIX
consecutive address/bytes string slots, so the claim's decomposition
into five string fields (which would only give 10 slots) does not match
the declaration. -/
theorem C5_counterexample :
    wyvernAtomicMatchParameterSlots.length = 11 ∧
    claimedAtomicMatchSlots.length = 10 ∧
    wyvernAtomicMatchParameterSlots ≠ claimedAtomicMatchSlots ∧
    (wyvernAtomicMatchParameterSlots.filter (· = TSType.str)).length = 6 := by
  decide

/-- C5 (amended): `WyvernAtomicMatchParameters` is a positional tuple of
exactly 11 slots in this fixed order: an address array, a uint array, a
mixed numeric/address array, then SIX address/bytes string fields, then
a final mixed numeric array and an address array. -/
theorem C5_theorem :
    wyvernAtomicMatchParameterSlots =
      [ TSType.array TSType.str, TSType.array TSType.bigNumber
      , TSType.array TSType.numOrBigNumber
      , TSType.str, TSType.str, TSType.str, TSType.str, TSType.str, TSType.str
      , TSType.array TSType.numOrBigNumber, TSType.array TSType.str ] ∧
    wyvernAtomicMatchParameterSlots.length = 11 := by
  decide

/-! ## C6: computed fee invariants -/

/-- C6: for every valid `ComputedFees` value, the buyer total equals the
opensea + dev buyer basis points, the seller total equals the opensea +
dev seller basis points, and every basis-point field is in
`[0, 10000]`. -/
theorem C6_theorem (f : ComputedFees) (h : f.valid) :
    f.totalBuyerFeeBasisPoints =
      f.openseaBuyerFeeBasisPoints + f.devBuyerFeeBasisPoints ∧
    f.totalSellerFeeBasisPoints =
      f.openseaSellerFeeBasisPoints + f.devSellerFeeBasisPoints ∧
    (0 ≤ f.openseaSellerFeeBasisPoints ∧ f.openseaSellerFeeBasisPoints ≤ 10000) ∧
    (0 ≤ f.openseaBuyerFeeBasisPoints ∧ f.openseaBuyerFeeBasisPoints ≤ 10000) ∧
    (0 ≤ f.devSellerFeeBasisPoints ∧ f.devSellerFeeBasisPoints ≤ 10000) ∧
    (0 ≤ f.devBuyerFeeBasisPoints ∧ f.devBuyerFeeBasisPoints ≤ 10000) ∧
    (0 ≤ f.totalBuyerFeeBasisPoints ∧ f.totalBuyerFeeBasisPoints ≤ 10000) ∧
    (0 ≤ f.totalSellerFeeBasisPoints ∧ f.totalSellerFeeBasisPoints ≤ 10000) := by
  obtain ⟨h1, h2, h3, h4, h5, h6, h7, h8, h9, h10, h11, h12, h13, h14⟩ := h
  exact ⟨h13, h14, ⟨h1, h2⟩, ⟨h3, h4⟩, ⟨h5, h6⟩, ⟨h7, h8⟩, ⟨h9, h10⟩, ⟨h11, h12⟩⟩

/-- A typical fee configuration: 2.5% opensea seller fee, 5% dev seller
fee, no buyer fees. -/
def sampleComputedFees : ComputedFees where
  openseaSellerFeeBasisPoints := 250
  openseaBuyerFeeBasisPoints := 0
  devSellerFeeBasisPoints := 500
  devBuyerFeeBasisPoints := 0
  totalBuyerFeeBasisPoints := 0
  totalSellerFeeBasisPoints := 750

/-- C6 witness: the sample fee record is valid and its seller total is
the sum of its opensea and dev seller basis points. -/
theorem C6_witness :
    sampleComputedFees.totalSellerFeeBasisPoints =
      sampleComputedFees.openseaSellerFeeBasisPoints +
        sampleComputedFees.devSellerFeeBasisPoints :=
  (C6_theorem sampleComputedFees (by decide)).2.1

/-! ## C7: bundle asset/schema pairing -/

/-- A well-typed `WyvernBundle` whose sequences have different lengths:
the declaration does not force `assets` and `schemas` to be equally
long. -/
def sampleLopsidedBundle : WyvernBundle where
  assets := [.nft ⟨"1", "0x0000000000000000000000000000000000000002"⟩]
  schemas := []
  name := none
  description := none
  external_link := none

/-- C7 counterexample: a well-typed bundle with one asset and no
schemas, so not every `WyvernBundle` value has equally long `assets`
and `schemas` sequences — the type itself does not enforce the
invariant. -/
theorem C7_counterexample :
    sampleLopsidedBundle.assets.length = 1 ∧
    sampleLopsidedBundle.schemas.length = 0 ∧
    sampleLopsidedBundle.assets.length ≠ sampleLopsidedBundle.schemas.length := by
  decide

/-- C7 (amended): the `WyvernBundle` type itself does not enforce equal
lengths; for every bundle satisfying the equal-length invariant, the
serialized form keeps the sequences parallel and deserialization
recovers the bundle exactly, preserving the index-wise asset/schema
pairing unchanged. -/
theorem C7_theorem (b : WyvernBundle)
    (h : b.assets.length = b.schemas.length) :
    WyvernBundle.ofJSON b.toJSON = some b ∧
    (WyvernBundle.ofJSON b.toJSON).map (fun b' => b'.assets.zip b'.schemas) =
      some (b.assets.zip b.schemas) ∧
    b.toJSON.assets.length = b.toJSON.schemas.length := by
  have h1 : parseAll WyvernAsset.ofJSON (b.assets.map WyvernAsset.toJSON) =
      some b.assets :=
    parseAll_map_id _ _ _ (fun a _ => WyvernAsset.ofJSON_toJSON a)
  have h2 : parseAll WyvernSchemaName.ofStr
      (b.schemas.map WyvernSchemaName.toStr) = some b.schemas :=
    parseAll_map_id _ _ _ (fun sc _ => WyvernSchemaName.ofStr_toStr sc)
  have hrt : WyvernBundle.ofJSON b.toJSON = some b := by
    simp [WyvernBundle.ofJSON, WyvernBundle.toJSON, h1, h2]
  refine ⟨hrt, by rw [hrt]; rfl, ?_⟩
  simp [WyvernBundle.toJSON, h]

/-- A one-asset ERC721 bundle. -/
def sampleBundle : WyvernBundle where
  assets := [.nft ⟨"1", "0x0000000000000000000000000000000000000002"⟩]
  schemas := [.ERC721]
  name := some "bundle"
  description := none
  external_link := none

/-- C7 witness: the sample bundle round-trips through serialization
unchanged. -/
theorem C7_witness :
    WyvernBundle.ofJSON sampleBundle.toJSON = some sampleBundle :=
  (C7_theorem sampleBundle (by decide)).1

/-! ## C8: the callback convention -/

/-- C8: every invocation of a `Web3Callback` handler receives exactly
one of the two outcomes — a non-null error object and no meaningful
result, or a typed result and a null error — never both. -/
theorem C8_theorem (T : Type) (inv : Web3CallbackInvocation T) :
    (∃ e, inv.errArg = some e ∧ inv.resultArg = none) ∨
    (∃ t, inv.resultArg = some t ∧ inv.errArg = none) := by
  cases inv with
  | failure e => exact Or.inl ⟨e, rfl, rfl⟩
  | success t => exact Or.inr ⟨t, rfl, rfl⟩

/-! ## C9: `RawWyvernOrderJSON` as an `Omit` of `OrderJSON` -/

/-- C9: `RawWyvernOrderJSON` holds exactly the fields of `OrderJSON`
minus the omitted key set, with name, optionality and type unchanged;
`OrderJSON` itself declares no `hash` field, so that omission removes
nothing. -/
theorem C9_theorem :
    (∀ f ∈ rawWyvernOrderJSONFields,
      f ∈ orderJSONFields ∧ f.name ∉ rawWyvernOmittedKeys) ∧
    (∀ f ∈ orderJSONFields,
      f.name ∉ rawWyvernOmittedKeys → f ∈ rawWyvernOrderJSONFields) ∧
    (∀ f ∈ orderJSONFields, f.name ≠ "hash") := by
  decide

/-- C9 witness: the `exchange` field survives the `Omit` unchanged. -/
theorem C9_witness :
    (⟨"exchange", false, TSType.str⟩ : TSField) ∈ orderJSONFields ∧
    (⟨"exchange", false, TSType.str⟩ : TSField).name ∉ rawWyvernOmittedKeys :=
  C9_theorem.1 ⟨"exchange", false, TSType.str⟩ (by decide)

/-! ## C10: the reserve-price key -/

/-- C10: in `OrderJSON` the `englishAuctionReservePrice` key is
mandatory with value type `string | undefined`, whereas in
`UnhashedOrder` the corresponding field is an optional `BigNumber`; a
well-typed `OrderJSON` value therefore always includes the key, possibly
with an undefined value. -/
theorem C10_theorem :
    (⟨"englishAuctionReservePrice", false, TSType.orUndefined TSType.str⟩ : TSField)
      ∈ orderJSONFields ∧
    (∀ f ∈ orderJSONFields, f.name = "englishAuctionReservePrice" →
      f.optionalKey = false ∧ f.type = TSType.orUndefined TSType.str) ∧
    (⟨"englishAuctionReservePrice", true, TSType.bigNumber⟩ : TSField)
      ∈ unhashedOrderFields ∧
    (∀ f ∈ unhashedOrderFields, f.name = "englishAuctionReservePrice" →
      f.optionalKey = true ∧ f.type = TSType.bigNumber) ∧
    (∀ j : OrderJSON, j.englishAuctionReservePrice = none ∨
      ∃ p, j.englishAuctionReservePrice = some p) := by
  refine ⟨by decide, by decide, by decide, by decide, fun j => ?_⟩
  cases h : j.englishAuctionReservePrice with
  | none => exact Or.inl rfl
  | some p => exact Or.inr ⟨p, rfl⟩

/-- C10 witness: looking the key up in the `OrderJSON` field table shows
a mandatory key of type `string | undefined`. -/
theorem C10_witness :
    (⟨"englishAuctionReservePrice", false, TSType.orUndefined TSType.str⟩ :
      TSField).optionalKey = false ∧
    (⟨"englishAuctionReservePrice", false, TSType.orUndefined TSType.str⟩ :
      TSField).type = TSType.orUndefined TSType.str :=
  C10_theorem.2.1 _ (by decide) rfl

end OpenSea
